import Mathlib

/-!
Verification development for the BCLand frontend core (`src/lib/contracts.ts`
plus the edit modal).  Each TypeScript function relevant to the specification is
shallowly embedded as a pure Lean definition: network effects (wallet
connection, ledger RPC, IPFS gateway fetches, Lighthouse/Kavach calls) are
abstracted as environment records whose fields give each call's outcome, and
the sequence of external calls a run performs is returned as an explicit trace.
JavaScript numbers are embedded as `JsNum` (NaN / signed infinity / an exact
rational for the finite case); the finite case is an exact-rational
idealization of IEEE doubles, and every theorem below uses it only where the
idealization is exact (sign tests and small decimal literals).
-/

/-- JavaScript `number` as used by `parseFloat` and the price arithmetic:
`NaN`, signed infinities, or a finite value (idealized as an exact rational). -/
inductive JsNum
  | nan
  | inf (neg : Bool)
  | fin (q : ℚ)
deriving DecidableEq, Repr

/-- The division `rmValue / RM_PER_ETH` (RM_PER_ETH = 4000, contracts.ts line
151).  NaN and infinities propagate; a finite value divides exactly (division
by the positive constant 4000 preserves the sign, which is all the guards
below inspect). -/
def jsDiv4000 : JsNum → JsNum
  | .nan => .nan
  | .inf s => .inf s
  | .fin q => .fin (q / 4000)

/-- The JavaScript comparison `x <= 0`: false for NaN (IEEE unordered
comparison), true for -Infinity, false for +Infinity, and the rational
comparison for finite values. -/
def jsLe0 : JsNum → Bool
  | .nan => false
  | .inf s => s
  | .fin q => decide (q ≤ 0)

/-- `ethers.parseEther(x.toString())`: `NaN.toString() = "NaN"` and
`Infinity.toString() = "Infinity"` fail ethers' decimal-string regex, so the
call throws `invalid FixedNumber string`.  A finite value converts exactly to
wei when `x * 10^18` is integral.  (Idealization: for finite values whose
`toString` uses exponent notation or more than 18 decimals ethers also throws;
no theorem below evaluates the finite branch at such a value.) -/
def parseEtherJs : JsNum → Except String Int
  | .nan => .error "invalid FixedNumber string"
  | .inf _ => .error "invalid FixedNumber string"
  | .fin q =>
      if (q * 10 ^ 18).den = 1 then .ok (q * 10 ^ 18).num
      else .error "invalid FixedNumber string"

/-- True when an `Except` carries an error. -/
def exceptFailed {ε α : Type} : Except ε α → Bool
  | .error _ => true
  | .ok _ => false

/-- External calls made by `listLandForSale` (contracts.ts lines 687-703). -/
inductive SaleCall
  | connect
  | ledgerList (landId : String) (priceWei : Int)
deriving DecidableEq, Repr

/-- Environment for `listLandForSale`: outcome of `connectAccount()` and of the
ledger call `contract.listLandForSale`. -/
structure SaleEnv where
  connect : Option Unit
  ledgerList : Except String Unit
deriving Repr

/-- Embedding of `listLandForSale` (contracts.ts lines 687-703): connect the
wallet, compute `ethValue = parseFloat(priceRM) / RM_PER_ETH`, throw
`Price must be positive` when `ethValue <= 0`, convert via
`ethers.parseEther`, then issue the ledger listing call.  The second component
is the trace of external calls the run performed; `rmValue` is the result of
`parseFloat(priceRM)`. -/
def listLandForSale (env : SaleEnv) (landId : String) (rmValue : JsNum) :
    Except String Int × List SaleCall :=
  match env.connect with
  | none => (.error "MetaMask not connected", [.connect])
  | some _ =>
    let ethValue := jsDiv4000 rmValue
    if jsLe0 ethValue then (.error "Price must be positive", [.connect])
    else
      match parseEtherJs ethValue with
      | .error e => (.error e, [.connect])
      | .ok priceWei =>
        match env.ledgerList with
        | .error e => (.error e, [.connect, .ledgerList landId priceWei])
        | .ok _ => (.ok priceWei, [.connect, .ledgerList landId priceWei])

/-- Left-pad a digit list with `0` up to length `n` (helper for the
`formatEther` embedding). -/
def padZeros (s : List Char) (n : Nat) : List Char :=
  List.replicate (n - s.length) '0' ++ s

/-- Drop trailing `0` digits (helper for the `formatEther` embedding). -/
def dropTrailingZeros (l : List Char) : List Char :=
  (l.reverse.dropWhile (fun c => c = '0')).reverse

/-- Embedding of `ethers.formatEther(wei)`: integer part, a dot, then the
18-digit fraction with trailing zeros trimmed but at least one digit kept —
so `formatEtherStr 0 = "0.0"`, exactly as ethers renders a zero price. -/
def formatEtherStr (wei : Nat) : String :=
  let whole := wei / 10 ^ 18
  let frac := wei % 10 ^ 18
  let fracDigits := dropTrailingZeros (padZeros (Nat.repr frac).data 18)
  Nat.repr whole ++ "." ++ (if fracDigits.isEmpty then "0" else String.mk fracDigits)

/-- Environment for `fetchLandPrice` (contracts.ts lines 575-587): outcome of
the provider/signer/contract setup, and of the `contract.landPrices(landId)`
lookup. -/
structure PriceEnv where
  setup : Except String Unit
  price : Except String Nat
deriving Repr

/-- Embedding of `fetchLandPrice` (contracts.ts lines 575-587): the whole body
sits in a `try`; any failure is caught and the string `"0"` is returned, while
success returns `ethers.formatEther(price)`.  The return type `String` (not
`Except`) reflects that the function never raises to its caller. -/
def fetchLandPrice (env : PriceEnv) : String :=
  match env.setup with
  | .error _ => "0"
  | .ok _ =>
    match env.price with
    | .error _ => "0"
    | .ok p => formatEtherStr p

/-- C4 counterexample: for the input `NaN` (e.g. `parseFloat` of a
non-numeric price string) the guard `ethValue <= 0` is false in JavaScript, so
`listLandForSale` does not fail with the `InvalidPrice` error
`Price must be positive` — it falls through to `ethers.parseEther`, which
throws a parse error with a different message instead. -/
theorem c4_counterexample :
    (listLandForSale ⟨some (), .ok ()⟩ "7" JsNum.nan).1 =
      .error "invalid FixedNumber string" ∧
    ("invalid FixedNumber string" : String) ≠ "Price must be positive" :=
  ⟨rfl, by decide⟩

/-- C4 amended: with the wallet connected, `listLandForSale` fails with the
`InvalidPrice` error `Price must be positive` exactly when the JavaScript
comparison `(x / 4000) <= 0` holds — so for finite `x ≤ 0` and for
`-Infinity`, but not for `NaN` or `+Infinity`, which pass the guard and fail
inside `parseEther` with a parse error; and in every such invalid case no
ledger listing call appears in the trace (wallet connection, however, has
already happened). -/
theorem c4_amended_invalid_price_guard (landId : String) (x : JsNum) :
    ((listLandForSale ⟨some (), .ok ()⟩ landId x).1 = .error "Price must be positive" ↔
      jsLe0 (jsDiv4000 x) = true) ∧
    ((x = .nan ∨ x = .inf false) →
      (listLandForSale ⟨some (), .ok ()⟩ landId x).1 = .error "invalid FixedNumber string") ∧
    ((jsLe0 (jsDiv4000 x) = true ∨ x = .nan ∨ x = .inf false) →
      ∀ (env : SaleEnv) (p : Int),
        SaleCall.ledgerList landId p ∉ (listLandForSale env landId x).2) := by
  refine ⟨?_, ?_, ?_⟩
  · constructor
    · intro h
      cases hle : jsLe0 (jsDiv4000 x) with
      | true => rfl
      | false =>
        exfalso
        cases x with
        | nan => simp [listLandForSale, jsDiv4000, jsLe0, parseEtherJs] at h
        | inf s =>
          cases s with
          | true => simp [jsDiv4000, jsLe0] at hle
          | false => simp [listLandForSale, jsDiv4000, jsLe0, parseEtherJs] at h
        | fin q =>
          simp only [jsDiv4000, jsLe0, decide_eq_false_iff_not] at hle
          by_cases hd : (((q : ℚ) / 4000) * 10 ^ 18).den = 1
          · simp [listLandForSale, jsDiv4000, jsLe0, parseEtherJs, hle, hd] at h
          · simp [listLandForSale, jsDiv4000, jsLe0, parseEtherJs, hle, hd] at h
    · intro h
      simp [listLandForSale, h]
  · rintro (rfl | rfl) <;> simp [listLandForSale, jsDiv4000, jsLe0, parseEtherJs]
  · intro h env p
    cases hc : env.connect with
    | none => simp [listLandForSale, hc]
    | some u =>
      rcases h with h | rfl | rfl
      · simp [listLandForSale, hc, h]
      · simp [listLandForSale, hc, jsDiv4000, jsLe0, parseEtherJs]
      · simp [listLandForSale, hc, jsDiv4000, jsLe0, parseEtherJs]

/-- A finite negative input makes the price guard fire. -/
theorem jsLe0_div_neg_five : jsLe0 (jsDiv4000 (JsNum.fin (-5))) = true := by
  simp only [jsDiv4000, jsLe0, decide_eq_true_eq]
  norm_num

/-- C4 witness: for the concrete finite input `-5` the guard fires, the
result is the `InvalidPrice` error, and no ledger call is issued. -/
theorem c4_witness :
    jsLe0 (jsDiv4000 (JsNum.fin (-5))) = true ∧
    (listLandForSale ⟨some (), .ok ()⟩ "7" (JsNum.fin (-5))).1 =
      .error "Price must be positive" ∧
    SaleCall.ledgerList "7" 0 ∉
      (listLandForSale ⟨some (), .ok ()⟩ "7" (JsNum.fin (-5))).2 :=
  ⟨jsLe0_div_neg_five,
   (c4_amended_invalid_price_guard "7" (JsNum.fin (-5))).1.mpr jsLe0_div_neg_five,
   (c4_amended_invalid_price_guard "7" (JsNum.fin (-5))).2.2 (Or.inl jsLe0_div_neg_five)
     ⟨some (), .ok ()⟩ 0⟩

/-- C10 counterexample: a genuinely zero on-chain price is rendered by
`ethers.formatEther` as `"0.0"`, while the catch-all failure branch returns
`"0"` — so the failure sentinel is in fact distinguishable from a genuine
zero price, contrary to the claim's indistinguishability clause. -/
theorem c10_counterexample :
    fetchLandPrice ⟨.ok (), .ok 0⟩ = "0.0" ∧
    fetchLandPrice ⟨.error "provider failure", .ok 0⟩ = "0" ∧
    ("0.0" : String) ≠ "0" := by
  refine ⟨?_, rfl, by decide⟩
  rfl

/-- C10 amended: `fetchLandPrice` never raises (it is total with result type
`String`); any setup or lookup failure yields the sentinel `"0"`, while a
successful lookup of a genuinely zero price yields `formatEther(0) = "0.0"`,
so the sentinel is distinguishable from a genuine zero price. -/
theorem c10_amended_zero_sentinel (env : PriceEnv) :
    ((exceptFailed env.setup = true ∨ exceptFailed env.price = true) →
      fetchLandPrice env = "0") ∧
    (env.setup = .ok () → env.price = .ok 0 → fetchLandPrice env = "0.0") := by
  constructor
  · intro h
    cases hs : env.setup with
    | error e => simp [fetchLandPrice, hs]
    | ok u =>
      cases hp : env.price with
      | error e => simp [fetchLandPrice, hs, hp]
      | ok p =>
        exfalso
        rcases h with h | h
        · rw [hs] at h; simp [exceptFailed] at h
        · rw [hp] at h; simp [exceptFailed] at h
  · intro hs hp
    rw [fetchLandPrice, hs, hp]
    rfl

/-- C10 witness: concrete instances of both branches of the amended claim. -/
theorem c10_witness :
    fetchLandPrice ⟨.error "boom", .ok 5⟩ = "0" ∧
    fetchLandPrice ⟨.ok (), .ok 0⟩ = "0.0" :=
  ⟨(c10_amended_zero_sentinel ⟨.error "boom", .ok 5⟩).1 (Or.inl rfl),
   (c10_amended_zero_sentinel ⟨.ok (), .ok 0⟩).2 rfl rfl⟩

/-- External calls made by `approvePurchase` (contracts.ts lines 738-771):
wallet connection, the on-chain transfer and its confirmation, and the
off-chain Kavach calls (auth challenge and encrypted-access transfer). -/
inductive XCall
  | connectCall
  | ledgerTransferCall (landId buyer : String)
  | txWaitCall
  | kavachAuthCall (address : String)
  | signCall (message : String)
  | kavachTransferCall (owner cid buyer signature : String)
deriving DecidableEq, Repr

/-- Environment for `approvePurchase`: the outcome of every awaited external
call.  `connect = none` models `connectAccount()` returning null;
`authMessage = .ok none` models a Kavach response whose `message` is not a
string; `kavachTransfer = .ok (some e)` models `kavach.transferOwnership`
resolving with an `error` field whose serialized payload is `e` (the code
throws `new Error(...)` built from exactly that payload), while
`kavachTransfer = .error e` models the call itself rejecting. -/
structure TransferEnv where
  connect : Option String
  ledgerTransfer : Except String Unit
  txWait : Except String Unit
  authMessage : Except String (Option String)
  sign : Except String String
  kavachTransfer : Except String (Option String)
deriving Repr

/-- Embedding of `approvePurchase` (contracts.ts lines 738-771), including the
inlined `signAuthMessage` helper (lines 728-732).  The first component is the
function's outcome (thrown error message or unit), the second the trace of
external calls in program order.  Phase 1 is the ledger transfer plus
`tx.wait()`; phase 2 is the Kavach auth challenge, wallet signature, and
`kavach.transferOwnership`. -/
def approvePurchase (env : TransferEnv) (landId buyerAddress privateCID : String) :
    Except String Unit × List XCall :=
  match env.connect with
  | none => (.error "MetaMask not connected", [.connectCall])
  | some userAddress =>
    match env.ledgerTransfer with
    | .error e => (.error e, [.connectCall, .ledgerTransferCall landId buyerAddress])
    | .ok _ =>
      match env.txWait with
      | .error e =>
          (.error e, [.connectCall, .ledgerTransferCall landId buyerAddress, .txWaitCall])
      | .ok _ =>
        match env.authMessage with
        | .error e =>
            (.error e,
             [.connectCall, .ledgerTransferCall landId buyerAddress, .txWaitCall,
              .kavachAuthCall userAddress])
        | .ok none =>
            (.error "No Kavach auth challenge found",
             [.connectCall, .ledgerTransferCall landId buyerAddress, .txWaitCall,
              .kavachAuthCall userAddress])
        | .ok (some message) =>
          match env.sign with
          | .error e =>
              (.error e,
               [.connectCall, .ledgerTransferCall landId buyerAddress, .txWaitCall,
                .kavachAuthCall userAddress, .signCall message])
          | .ok signature =>
            match env.kavachTransfer with
            | .error e =>
                (.error e,
                 [.connectCall, .ledgerTransferCall landId buyerAddress, .txWaitCall,
                  .kavachAuthCall userAddress, .signCall message,
                  .kavachTransferCall userAddress privateCID buyerAddress signature])
            | .ok (some errPayload) =>
                (.error errPayload,
                 [.connectCall, .ledgerTransferCall landId buyerAddress, .txWaitCall,
                  .kavachAuthCall userAddress, .signCall message,
                  .kavachTransferCall userAddress privateCID buyerAddress signature])
            | .ok none =>
                (.ok (),
                 [.connectCall, .ledgerTransferCall landId buyerAddress, .txWaitCall,
                  .kavachAuthCall userAddress, .signCall message,
                  .kavachTransferCall userAddress privateCID buyerAddress signature])

/-- True for the calls that reach the off-chain content store (Kavach auth
challenge and encrypted-access transfer). -/
def isOffchainCall : XCall → Bool
  | .kavachAuthCall _ => true
  | .kavachTransferCall _ _ _ _ => true
  | _ => false

/-- C1 counterexample: a phase-1 (ledger) failure and a phase-2 (regrant)
failure with the same payload produce byte-identical results — a plain thrown
`Error` whose message is just the payload — so the caller cannot distinguish
an `AccessRegrantFailure` from a `LedgerCallFailure`, and the error carries
neither `landId`, `buyer`, nor `documentCID`. -/
theorem c1_counterexample :
    (approvePurchase
        ⟨some "0xOWNER", .error "boom", .ok (), .ok (some "challenge"), .ok "sig", .ok none⟩
        "7" "0xBEEF" "QmDoc").1 =
      (approvePurchase
        ⟨some "0xOWNER", .ok (), .ok (), .ok (some "challenge"), .ok "sig", .ok (some "boom")⟩
        "7" "0xBEEF" "QmDoc").1 := rfl

/-- C1 amended: when the on-chain phase succeeds and the off-chain regrant
resolves with an error payload `e`, `approvePurchase` surfaces the failure by
throwing (never silently swallowing) — but as a generic `Error` whose message
is exactly `e`, independent of `landId`, `buyer`, and `privateCID`, so it
carries no reconciliation context and is not type-distinguishable from an
on-chain failure with the same message. -/
theorem c1_amended_regrant_error_surfaced
    (u m s e l b c l' b' c' : String) :
    (approvePurchase ⟨some u, .ok (), .ok (), .ok (some m), .ok s, .ok (some e)⟩ l b c).1 =
      .error e ∧
    (approvePurchase ⟨some u, .ok (), .ok (), .ok (some m), .ok s, .ok (some e)⟩ l b c).1 =
      (approvePurchase ⟨some u, .ok (), .ok (), .ok (some m), .ok s, .ok (some e)⟩ l' b' c').1 :=
  ⟨rfl, rfl⟩

/-- C2: if the on-chain phase fails — the ledger transfer call or its
`tx.wait()` confirmation throws — then no off-chain content-store call
(Kavach auth challenge or access transfer) appears in the trace, so the old
owner still controls document access. -/
theorem c2_no_offchain_after_ledger_failure
    (env : TransferEnv) (l b c : String)
    (h : exceptFailed env.ledgerTransfer = true ∨ exceptFailed env.txWait = true) :
    List.countP isOffchainCall (approvePurchase env l b c).2 = 0 := by
  cases hc : env.connect with
  | none => simp [approvePurchase, hc, isOffchainCall]
  | some u =>
    cases hl : env.ledgerTransfer with
    | error e => simp [approvePurchase, hc, hl, isOffchainCall]
    | ok _ =>
      cases hw : env.txWait with
      | error e => simp [approvePurchase, hc, hl, hw, isOffchainCall]
      | ok _ =>
        exfalso
        rcases h with h | h
        · rw [hl] at h; simp [exceptFailed] at h
        · rw [hw] at h; simp [exceptFailed] at h

/-- C2 witness: a concrete run whose ledger transfer reverts performs no
off-chain call at all. -/
theorem c2_witness :
    exceptFailed (Except.error "revert" : Except String Unit) = true ∧
    List.countP isOffchainCall
      (approvePurchase
        ⟨some "0xOWNER", .error "revert", .ok (), .ok (some "challenge"), .ok "sig", .ok none⟩
        "7" "0xBEEF" "QmDoc").2 = 0 :=
  ⟨rfl,
   c2_no_offchain_after_ledger_failure
     ⟨some "0xOWNER", .error "revert", .ok (), .ok (some "challenge"), .ok "sig", .ok none⟩
     "7" "0xBEEF" "QmDoc" (Or.inl rfl)⟩

/-- Program counter of one in-flight `approvePurchase` invocation, cut at its
`await` suspension points (contracts.ts lines 743-771): wallet connection,
on-chain transfer issued, `tx.wait()` confirmed, Kavach challenge signed,
off-chain regrant issued, finished.  `rejected` is the state a per-landId
re-entry guard would put a second invocation into; no statement in the
function's body can enter it.  The module keeps no mutable state between
invocations, so a step depends only on the instance's own counter. -/
inductive TPC
  | start
  | connected
  | ledgerIssued
  | confirmed
  | signed
  | regrantIssued
  | done
  | rejected
deriving DecidableEq, Repr

/-- One suspension-point step of an `approvePurchase` invocation in the
all-successful environment. -/
def tStep : TPC → TPC
  | .start => .connected
  | .connected => .ledgerIssued
  | .ledgerIssued => .confirmed
  | .confirmed => .signed
  | .signed => .regrantIssued
  | .regrantIssued => .done
  | .done => .done
  | .rejected => .rejected

/-- Two concurrent `approvePurchase` invocations for the same `landId`,
interleaved by a schedule: `false` advances the first instance one suspension
step, `true` the second.  Since the module holds no shared mutable state, the
instances cannot observe each other. -/
def runTwo : List Bool → TPC × TPC
  | [] => (.start, .start)
  | b :: rest =>
      let pq := runTwo rest
      if b then (pq.1, tStep pq.2) else (tStep pq.1, pq.2)

/-- C8 counterexample: under the schedule that advances each instance twice,
both invocations for the same `landId` have issued the on-chain transfer,
neither has completed, and neither was rejected — so a second transfer for a
`landId` with one already in flight is not rejected, refuting the claimed
per-landId mutual-exclusion guard. -/
theorem c8_counterexample :
    runTwo [true, true, false, false] = (TPC.ledgerIssued, TPC.ledgerIssued) ∧
    (TPC.ledgerIssued ≠ TPC.rejected ∧ TPC.ledgerIssued ≠ TPC.done) := by
  exact ⟨rfl, by decide⟩

/-- C8 amended: `approvePurchase` has no per-landId mutual-exclusion guard:
under every interleaving of two invocations for the same `landId`, neither
instance is ever rejected on account of the other being in flight. -/
theorem c8_amended_no_reentry_guard (sched : List Bool) :
    (runTwo sched).1 ≠ TPC.rejected ∧ (runTwo sched).2 ≠ TPC.rejected := by
  induction sched with
  | nil => exact ⟨by decide, by decide⟩
  | cons b rest ih =>
    have hstep : ∀ p : TPC, p ≠ TPC.rejected → tStep p ≠ TPC.rejected := by
      intro p hp
      cases p <;> simp [tStep] at *
    cases b with
    | false => exact ⟨hstep _ ih.1, ih.2⟩
    | true => exact ⟨ih.1, hstep _ ih.2⟩

/-- Parcel sale status as used on chain; `statusToEnum` below gives the
numeric encoding from the edit modal (part_000 lines 34-42). -/
inductive LandStatus
  | Active
  | ForSale
  | PendingApproval
  | Approved
deriving DecidableEq, Repr

/-- Embedding of `statusToEnum` (part_000 lines 34-42): the numeric enum the
ledger stores for each status. -/
def statusToEnum : LandStatus → Nat
  | .Active => 0
  | .ForSale => 1
  | .PendingApproval => 2
  | .Approved => 3

/-- Modelled from the spec: the events of the AssetStateMachine of spec §4.3.
The machine itself is implemented in the Solidity contract
(`block/.../LandRegistry.sol`), which is not under `src/`; only its callers
(`listLandForSale`, `requestToBuy`, `approvePurchase`) and the status
encoding (`statusToEnum`) appear in the source. -/
inductive SMEvent
  | listEv (priceMinor : Nat)
  | buyerCommitsEv (funds : Nat)
  | ownerApprovesEv
  | cancelEv
deriving DecidableEq, Repr

/-- Modelled from the spec: a parcel's on-chain fields consulted by the
state machine (spec §3). -/
structure SMParcel where
  owner : String
  status : LandStatus
  priceMinorUnit : Nat
  pendingBuyer : Option String
deriving DecidableEq, Repr

/-- Modelled from the spec: the ledger call the machine would issue for a
validated transition (spec §4.3: the machine only computes "the call to
issue"; the state change is committed by the ledger). -/
inductive LedgerOp
  | listOp (price : Nat)
  | buyerCommitOp (buyer : String) (funds : Nat)
  | approveOp
  | cancelOp
deriving DecidableEq, Repr

/-- Modelled from the spec: the state machine's local error taxonomy
(spec §7): `invalidTransition` for a pair not in the table or an unauthorized
caller, `invalidPrice` when the §4.1 price validity precondition fails. -/
inductive SMError
  | invalidTransition
  | invalidPrice
deriving DecidableEq, Repr

/-- The (state, event) pairs listed in the transition table of spec §4.3. -/
def listedPair : LandStatus → SMEvent → Bool
  | .Active, .listEv _ => true
  | .ForSale, .buyerCommitsEv _ => true
  | .PendingApproval, .ownerApprovesEv => true
  | .ForSale, .cancelEv => true
  | .PendingApproval, .cancelEv => true
  | _, _ => false

/-- The caller-authorization column of the table of spec §4.3: `list`,
`ownerApproves` and `cancel` require the current owner; `buyerCommits` is
open to any buyer. -/
def authorizedFor (p : SMParcel) (caller : String) : SMEvent → Bool
  | .listEv _ => caller = p.owner
  | .buyerCommitsEv _ => true
  | .ownerApprovesEv => caller = p.owner
  | .cancelEv => caller = p.owner

/-- Modelled from the spec: the AssetStateMachine transition function of
spec §4.3.  It validates a (state, event, caller) triple and computes the
intended next parcel record together with the ledger call to issue; a pair
not in the table, an unauthorized caller, or a failed precondition returns an
error, in which case no ledger call is produced and the parcel record is
untouched (the function is pure). -/
def smTransition (p : SMParcel) (caller : String) (e : SMEvent) :
    Except SMError (SMParcel × LedgerOp) :=
  match p.status, e with
  | .Active, .listEv price =>
      if caller = p.owner then
        if 0 < price then
          .ok ({ p with status := .ForSale, priceMinorUnit := price }, .listOp price)
        else .error .invalidPrice
      else .error .invalidTransition
  | .ForSale, .buyerCommitsEv funds =>
      if p.pendingBuyer = none ∧ funds = p.priceMinorUnit then
        .ok ({ p with status := .PendingApproval, pendingBuyer := some caller },
             .buyerCommitOp caller funds)
      else .error .invalidTransition
  | .PendingApproval, .ownerApprovesEv =>
      if caller = p.owner ∧ p.pendingBuyer.isSome then
        .ok ({ p with status := .Approved, pendingBuyer := none, priceMinorUnit := 0 },
             .approveOp)
      else .error .invalidTransition
  | .ForSale, .cancelEv =>
      if caller = p.owner then
        .ok ({ p with status := .Active, pendingBuyer := none, priceMinorUnit := 0 },
             .cancelOp)
      else .error .invalidTransition
  | .PendingApproval, .cancelEv =>
      if caller = p.owner then
        .ok ({ p with status := .Active, pendingBuyer := none, priceMinorUnit := 0 },
             .cancelOp)
      else .error .invalidTransition
  | _, _ => .error .invalidTransition

/-- C3: the transition table is exhaustive — every (state, event) pair not
listed in the table of §4.3, and every listed transition attempted by an
unauthorized caller, fails with `invalidTransition`; since `smTransition`
then returns no `LedgerOp` and the input record is untouched, the parcel's
state is left unchanged and no ledger call is issued. -/
theorem c3_transition_table_exhaustive (p : SMParcel) (caller : String) (e : SMEvent)
    (h : listedPair p.status e = false ∨ authorizedFor p caller e = false) :
    smTransition p caller e = .error .invalidTransition := by
  cases e with
  | listEv price =>
    cases hs : p.status <;>
      simp_all [smTransition, listedPair, authorizedFor]
  | buyerCommitsEv funds =>
    cases hs : p.status <;>
      simp_all [smTransition, listedPair, authorizedFor]
  | ownerApprovesEv =>
    cases hs : p.status <;>
      simp_all [smTransition, listedPair, authorizedFor]
  | cancelEv =>
    cases hs : p.status <;>
      simp_all [smTransition, listedPair, authorizedFor]

/-- C3 witness: an `Approved` parcel admits no `list` event (the pair is not
in the table), and the operation fails with `invalidTransition`. -/
theorem c3_witness :
    (listedPair LandStatus.Approved (SMEvent.listEv 5) = false ∨
      authorizedFor ⟨"alice", LandStatus.Approved, 0, none⟩ "alice" (SMEvent.listEv 5) = false) ∧
    smTransition ⟨"alice", LandStatus.Approved, 0, none⟩ "alice" (SMEvent.listEv 5) =
      .error .invalidTransition :=
  ⟨Or.inl rfl,
   c3_transition_table_exhaustive ⟨"alice", LandStatus.Approved, 0, none⟩ "alice"
     (SMEvent.listEv 5) (Or.inl rfl)⟩

/-- Outcome of one gateway HTTP fetch in `getMyLands` (part_000 lines
338-348): the `fetch` threw (caught by the per-gateway `catch`), the response
was not `ok`, or it returned a parsed `{address, description}` body. -/
inductive FetchRes
  | threw
  | notOk
  | okJson (address description : String)
deriving DecidableEq, Repr

/-- The Lighthouse gateway URL built for a CID (part_000 line 330). -/
def gatewayUrl (cid : String) : String :=
  "https://gateway.lighthouse.storage/ipfs/" ++ cid

/-- The per-CID gateway loop of `getMyLands` (part_000 lines 337-348): try
each gateway URL in order, first parseable success wins, total failure yields
`none` (it never raises — each iteration's exceptions are caught). -/
def resolveViaGateways (fetchEnv : String → FetchRes) : List String → Option (String × String)
  | [] => none
  | url :: rest =>
    match fetchEnv url with
    | .okJson a d => some (a, d)
    | _ => resolveViaGateways fetchEnv rest

/-- On-chain fields returned by `contract.getLand(id)` as consumed by the
aggregation functions: status code, metadata CID, owner address, public CID,
and (for `fetchAllLands`) the `landPrices` value in wei. -/
structure ChainRec where
  status : Nat
  metadataCID : String
  owner : String
  publicCID : String
  priceWei : Nat
deriving DecidableEq, Repr

/-- One assembled record of `getMyLands` (part_000 lines 306-372). -/
structure MyLand where
  landId : String
  status : Nat
  address : String
  description : String
deriving DecidableEq, Repr

/-- The per-identifier task body of `getMyLands` (part_000 lines 316-367):
read the on-chain fields, run the gateway loop on the parcel's public CID,
and on total resolution failure fall back to the explicit markers `"N/A"` /
`"Unable to load metadata"`. -/
def myLandSlot (chain : Nat → ChainRec) (fetchEnv : String → FetchRes) (id : Nat) : MyLand :=
  let land := chain id
  match resolveViaGateways fetchEnv [gatewayUrl land.publicCID] with
  | none => ⟨Nat.repr id, land.status, "N/A", "Unable to load metadata"⟩
  | some (a, d) => ⟨Nat.repr id, land.status, a, d⟩

/-- Denotation of `getMyLands` (part_000 lines 306-372): `landIds.map(...)`
followed by `Promise.all` keeps the results in input order, one slot per
identifier. -/
def getMyLands (chain : Nat → ChainRec) (fetchEnv : String → FetchRes)
    (ids : List Nat) : List MyLand :=
  ids.map (myLandSlot chain fetchEnv)

/-- Completion-order semantics of the `Promise.all` fan-out: the tasks started
by `landIds.map` complete in an arbitrary schedule order, each writing only
its own slot of the result array. -/
def fillSchedule (chain : Nat → ChainRec) (fetchEnv : String → FetchRes)
    (ids : List Nat) : List Nat → Nat → Option MyLand
  | [] => fun _ => none
  | k :: rest =>
      Function.update (fillSchedule chain fetchEnv ids rest) k
        (ids[k]?.map (myLandSlot chain fetchEnv))

/-- A slot scheduled at least once holds its own task's result, no matter
where in the completion order it ran. -/
theorem fillSchedule_mem (chain : Nat → ChainRec) (fetchEnv : String → FetchRes)
    (ids : List Nat) (sched : List Nat) (k : Nat) (hk : k ∈ sched) :
    fillSchedule chain fetchEnv ids sched k = ids[k]?.map (myLandSlot chain fetchEnv) := by
  induction sched with
  | nil => cases hk
  | cons j rest ih =>
    by_cases hkj : k = j
    · subst hkj
      simp [fillSchedule]
    · rcases List.mem_cons.mp hk with h | h
      · exact absurd h hkj
      · rw [fillSchedule, Function.update_noteq hkj]
        exact ih h

/-- C5: under every completion schedule that runs each task (the fan-out
issues them all), the result array read off in slot order equals the
input-order map of the per-identifier task — so results come back in exactly
the input identifier order regardless of completion order, and each slot is
the pure function of its own identifier's chain record and gateway outcomes,
so a total resolution failure in one slot (the `"N/A"` fallback) cannot
affect any other slot. -/
theorem c5_resolveMany_order_preserved (chain : Nat → ChainRec)
    (fetchEnv : String → FetchRes) (ids : List Nat) (sched : List Nat)
    (h : ∀ k, k < ids.length → k ∈ sched) :
    (List.range ids.length).map (fillSchedule chain fetchEnv ids sched) =
      (getMyLands chain fetchEnv ids).map some := by
  apply List.ext_getElem
  · simp [getMyLands]
  · intro i h1 h2
    have hi : i < ids.length := by simpa using h1
    rw [List.getElem_map, List.getElem_range,
      fillSchedule_mem chain fetchEnv ids sched i (h i hi)]
    simp [getMyLands, List.getElem?_eq_getElem hi]

/-- Concrete chain records for the C5 witness. -/
def chainEx5 : Nat → ChainRec := fun i =>
  ⟨i % 4, "meta" ++ Nat.repr i, "0xOWNER", "pub" ++ Nat.repr i, 0⟩

/-- Concrete gateway outcomes for the C5 witness: every gateway fails for
identifier 11 (its public CID is `pub11`), others resolve. -/
def fetchEx5 : String → FetchRes := fun url =>
  if url = gatewayUrl "pub11" then .threw else .okJson "addr" "desc"

/-- C5 witness: three identifiers, a completion order different from the
input order, and total resolution failure for the middle identifier; the
result is still input-ordered and the other slots are resolved. -/
theorem c5_witness :
    (∀ k, k < ([10, 11, 12] : List Nat).length → k ∈ ([2, 0, 1, 0] : List Nat)) ∧
    (List.range ([10, 11, 12] : List Nat).length).map
        (fillSchedule chainEx5 fetchEx5 [10, 11, 12] [2, 0, 1, 0]) =
      (getMyLands chainEx5 fetchEx5 [10, 11, 12]).map some :=
  ⟨by decide,
   c5_resolveMany_order_preserved chainEx5 fetchEx5 [10, 11, 12] [2, 0, 1, 0] (by decide)⟩

/-- The descriptive metadata JSON fetched by `getYourLands` (part_000 lines
511-519); `fetchAllLands` parses the same document (its declared shape swaps
`priceRM` for `nric`, but it destructures only fields present here, part_000
lines 653-660). -/
structure YourMeta where
  titleNumber : String
  landType : String
  username : String
  priceRM : String
  area : String
  geranCid : String
  timestamp : String
deriving DecidableEq, Repr

/-- Outcome of the single `fetch` of `getYourLands` / `fetchAllLands`
(part_000 lines 521-527 and 627-634): the fetch threw (caught by the empty
`catch`), the response was not `ok`, or it parsed to a metadata document. -/
inductive MetaFetch
  | threw
  | notOk
  | okJson (m : YourMeta)
deriving DecidableEq, Repr

/-- True when the metadata resolution produced no document. -/
def fetchFailed : MetaFetch → Bool
  | .okJson _ => false
  | _ => true

/-- One assembled record of `getYourLands` / `fetchAllLands` (the exported
`YourLand` interface, part_000 lines 153-166). -/
structure YourLand where
  landId : String
  status : Nat
  titleNumber : String
  landType : String
  username : String
  priceRM : String
  area : String
  geranCid : String
  geranUrl : String
  timestamp : String
  owner : String
  metadataCID : String
deriving DecidableEq, Repr

/-- The per-identifier task body of `getYourLands` (part_000 lines 494-570):
on-chain fields always populate `landId`, `status`, `owner` and
`metadataCID`; when the metadata fetch fails every descriptive field —
including `priceRM`, which `getYourLands` takes only from the metadata — is
the empty string. -/
def yourLandSlot (chain : Nat → ChainRec) (f : String → MetaFetch) (id : Nat) : YourLand :=
  let c := chain id
  match f (gatewayUrl c.publicCID) with
  | .okJson m =>
      ⟨Nat.repr id, c.status, m.titleNumber, m.landType, m.username, m.priceRM,
       m.area, m.geranCid, gatewayUrl m.geranCid, m.timestamp, c.owner, c.metadataCID⟩
  | _ =>
      ⟨Nat.repr id, c.status, "", "", "", "", "", "", "", "", c.owner, c.metadataCID⟩

/-- Denotation of `getYourLands` (part_000 lines 487-573): input-ordered map
of the per-identifier task. -/
def getYourLands (chain : Nat → ChainRec) (f : String → MetaFetch)
    (ids : List Nat) : List YourLand :=
  ids.map (yourLandSlot chain f)

/-- JS `toFixed(2)` on a nonnegative rational: round half-up to two decimals
and print with exactly two fraction digits. -/
def toFixed2 (q : ℚ) : String :=
  let n : ℕ := (⌊q * 100 + 1 / 2⌋).toNat
  Nat.repr (n / 100) ++ "." ++
    (if n % 100 < 10 then "0" ++ Nat.repr (n % 100) else Nat.repr (n % 100))

/-- The RM price string `fetchAllLands` derives from the on-chain price
(part_000 lines 612-615): `(parseFloat(formatEther(priceWei)) * RM_PER_ETH)
.toFixed(2)`, idealized over exact rationals. -/
def priceRMofWei (wei : Nat) : String :=
  toFixed2 ((wei : ℚ) * 4000 / 10 ^ 18)

/-- The per-identifier task body of `fetchAllLands` (part_000 lines 594-676):
like `yourLandSlot`, but `priceRM` always comes from the on-chain
`landPrices` value, in both the resolved and the fallback branch. -/
def fetchAllLandsSlot (chain : Nat → ChainRec) (f : String → MetaFetch) (id : Nat) : YourLand :=
  let c := chain id
  let priceRM := priceRMofWei c.priceWei
  match f (gatewayUrl c.publicCID) with
  | .okJson m =>
      ⟨Nat.repr id, c.status, m.titleNumber, m.landType, m.username, priceRM,
       m.area, m.geranCid, gatewayUrl m.geranCid, m.timestamp, c.owner, c.metadataCID⟩
  | _ =>
      ⟨Nat.repr id, c.status, "", "", "", priceRM, "", "", "", "", c.owner, c.metadataCID⟩

/-- Denotation of `fetchAllLands` (part_000 lines 589-679). -/
def fetchAllLands (chain : Nat → ChainRec) (f : String → MetaFetch)
    (ids : List Nat) : List YourLand :=
  ids.map (fetchAllLandsSlot chain f)

/-- Concrete chain record for the C6 theorems. -/
def chainEx6 : Nat → ChainRec := fun _ =>
  ⟨1, "QmMeta", "0xOWNER", "QmPub", 2 * 10 ^ 18⟩

/-- C6 counterexample: when metadata resolution fails, `getYourLands` keeps
the record but fills every descriptive field — and `priceRM` — with the
silent empty string, not an explicit "unavailable" marker, and the
authoritative on-chain price is not populated either. -/
theorem c6_counterexample :
    (getYourLands chainEx6 (fun _ => MetaFetch.threw) [3]).map
        (fun r => (r.titleNumber, r.landType, r.priceRM, r.area)) =
      [("", "", "", "")] := by
  rfl

/-- C6 amended: a metadata-resolution failure never drops a record and never
raises: the batch length is preserved, the failing slot still carries the
authoritative on-chain `landId`, `status`, `owner` and `metadataCID` — and in
`fetchAllLands` also the chain-derived `priceRM` — but its descriptive fields
(and, in `getYourLands`, `priceRM` too) degrade to silent empty strings
rather than an explicit "unavailable" marker. -/
theorem c6_amended_degraded_record (chain : Nat → ChainRec) (f : String → MetaFetch)
    (ids : List Nat) (i : Nat) (hi : i < ids.length)
    (hf : fetchFailed (f (gatewayUrl (chain (ids.get ⟨i, hi⟩)).publicCID)) = true) :
    (getYourLands chain f ids).length = ids.length ∧
    (getYourLands chain f ids)[i]? = some (yourLandSlot chain f (ids.get ⟨i, hi⟩)) ∧
    yourLandSlot chain f (ids.get ⟨i, hi⟩) =
      ⟨Nat.repr (ids.get ⟨i, hi⟩), (chain (ids.get ⟨i, hi⟩)).status, "", "", "", "", "", "",
       "", "", (chain (ids.get ⟨i, hi⟩)).owner, (chain (ids.get ⟨i, hi⟩)).metadataCID⟩ ∧
    (fetchAllLandsSlot chain f (ids.get ⟨i, hi⟩)).priceRM =
      priceRMofWei (chain (ids.get ⟨i, hi⟩)).priceWei := by
  refine ⟨by simp [getYourLands], ?_, ?_, ?_⟩
  · rw [getYourLands, List.getElem?_map, List.getElem?_eq_getElem hi]
    rfl
  · rw [yourLandSlot]
    cases hfe : f (gatewayUrl (chain (ids.get ⟨i, hi⟩)).publicCID) with
    | okJson m => rw [hfe] at hf; simp [fetchFailed] at hf
    | threw => rfl
    | notOk => rfl
  · rw [fetchAllLandsSlot]
    cases hfe : f (gatewayUrl (chain (ids.get ⟨i, hi⟩)).publicCID) <;> rfl

/-- C6 witness: the concrete failing batch of the counterexample satisfies the
amended claim's hypotheses and conclusion. -/
theorem c6_witness :
    (0 < ([3] : List Nat).length ∧
      fetchFailed ((fun _ => MetaFetch.threw) (gatewayUrl (chainEx6 3).publicCID)) = true) ∧
    ((getYourLands chainEx6 (fun _ => MetaFetch.threw) [3]).length = ([3] : List Nat).length ∧
      (getYourLands chainEx6 (fun _ => MetaFetch.threw) [3])[0]? =
        some (yourLandSlot chainEx6 (fun _ => MetaFetch.threw) (([3] : List Nat).get ⟨0, by decide⟩)) ∧
      yourLandSlot chainEx6 (fun _ => MetaFetch.threw) (([3] : List Nat).get ⟨0, by decide⟩) =
        ⟨Nat.repr (([3] : List Nat).get ⟨0, by decide⟩),
         (chainEx6 (([3] : List Nat).get ⟨0, by decide⟩)).status, "", "", "", "", "", "",
         "", "", (chainEx6 (([3] : List Nat).get ⟨0, by decide⟩)).owner,
         (chainEx6 (([3] : List Nat).get ⟨0, by decide⟩)).metadataCID⟩ ∧
      (fetchAllLandsSlot chainEx6 (fun _ => MetaFetch.threw) (([3] : List Nat).get ⟨0, by decide⟩)).priceRM =
        priceRMofWei (chainEx6 (([3] : List Nat).get ⟨0, by decide⟩)).priceWei) :=
  ⟨⟨by decide, rfl⟩,
   c6_amended_degraded_record chainEx6 (fun _ => MetaFetch.threw) [3] 0 (by decide) rfl⟩

/-- The metadata object `listingLand` uploads (part_000 lines 443-451):
`{ titleNumber, landType, username, area: "100 m2", geranCid, timestamp }` —
note it carries neither the caller's `priceRM` nor the file contents. -/
structure ListingMetadata where
  titleNumber : String
  landType : String
  username : String
  area : String
  geranCid : String
  timestamp : String
deriving DecidableEq, Repr

/-- External calls made by `listingLand` (part_000 lines 418-484), in program
order: wallet connection, Kavach auth challenge, wallet signature, encrypted
Geran upload, public metadata upload (carrying the metadata object), and the
`registerLand` ledger call. -/
inductive LCall
  | connectCall
  | authCall (address : String)
  | signCall (message : String)
  | encUploadCall (address signature : String)
  | metaUploadCall (m : ListingMetadata)
  | registerCall (toAddr geranCid publicCid : String) (priceWei : Int)
deriving DecidableEq, Repr

/-- Environment for `listingLand`: outcome of each awaited external call plus
the ISO timestamp `new Date().toISOString()` observed at metadata-build time.
The original connection-failure message is Japanese; an ASCII paraphrase
stands in for it (its content is not load-bearing). -/
structure ListingEnv where
  connect : Option String
  authMessage : Except String String
  sign : Except String String
  uploadEncrypted : Except String String
  uploadMeta : Except String String
  register : Except String Unit
  nowISO : String
deriving Repr

/-- Embedding of `listingLand` (part_000 lines 418-484): connect, obtain and
sign the Kavach challenge, upload the encrypted Geran file (yielding
`geranCid`), build and upload the metadata JSON (yielding `publicCid`), only
then convert `priceRM` and — when the price passes the checks — issue
`registerLand(userAddress, geranCid, publicCid, priceWei)`. -/
def listingLand (env : ListingEnv) (titleNumber landType : String) (priceRM : JsNum)
    (username : String) : Except String Unit × List LCall :=
  match env.connect with
  | none => (.error "MetaMask connection failed", [.connectCall])
  | some userAddress =>
    match env.authMessage with
    | .error e => (.error e, [.connectCall, .authCall userAddress])
    | .ok challenge =>
      match env.sign with
      | .error e => (.error e, [.connectCall, .authCall userAddress, .signCall challenge])
      | .ok signature =>
        match env.uploadEncrypted with
        | .error e =>
            (.error e,
             [.connectCall, .authCall userAddress, .signCall challenge,
              .encUploadCall userAddress signature])
        | .ok geranCid =>
          let metadataObj : ListingMetadata :=
            ⟨titleNumber, landType, username, "100 m2", geranCid, env.nowISO⟩
          let tr :=
            [LCall.connectCall, .authCall userAddress, .signCall challenge,
             .encUploadCall userAddress signature, .metaUploadCall metadataObj]
          match env.uploadMeta with
          | .error e => (.error e, tr)
          | .ok publicCid =>
            let ethValue := jsDiv4000 priceRM
            if jsLe0 ethValue then (.error "Price must be at least MYR 4000", tr)
            else
              match parseEtherJs ethValue with
              | .error e => (.error e, tr)
              | .ok priceWei =>
                match env.register with
                | .error e =>
                    (.error e, tr ++ [.registerCall userAddress geranCid publicCid priceWei])
                | .ok _ =>
                    (.ok (), tr ++ [.registerCall userAddress geranCid publicCid priceWei])

/-- C9: for every invocation of `listingLand` that reaches the metadata
upload (wallet connected, challenge obtained and signed, encrypted upload
returned `geranCid`), the uploaded metadata object is exactly
`⟨titleNumber, landType, username, "100 m2", geranCid, timestamp⟩` — its
declared area is the hardcoded constant `"100 m2"` and it embeds the
`geranCid` of the encrypted document upload, regardless of the caller's
`titleNumber`, `landType`, `priceRM`, file, and `username` (even a `priceRM`
failing the later price checks does not prevent or alter the upload). -/
theorem c9_metadata_area_constant (titleNumber landType : String) (priceRM : JsNum)
    (username u challenge signature geranCid : String)
    (um : Except String String) (reg : Except String Unit) (now : String) :
    LCall.metaUploadCall ⟨titleNumber, landType, username, "100 m2", geranCid, now⟩ ∈
      (listingLand ⟨some u, .ok challenge, .ok signature, .ok geranCid, um, reg, now⟩
        titleNumber landType priceRM username).2 := by
  cases um with
  | error e => simp [listingLand]
  | ok publicCid =>
    cases hle : jsLe0 (jsDiv4000 priceRM) with
    | true => simp [listingLand, hle]
    | false =>
      cases hp : parseEtherJs (jsDiv4000 priceRM) with
      | error e => simp [listingLand, hle, hp]
      | ok priceWei =>
        cases reg with
        | error e => simp [listingLand, hle, hp]
        | ok _ => simp [listingLand, hle, hp]
